import Mathlib

/-!
Shallow embedding of the agent-registry / MCP tool-dispatch backend
(`database.py`, `mcp_server.py`, `server.py`, `routes/agents.py`,
`routes/mcp.py`) and proofs about its behaviour.

Modelling conventions:
- Machine timestamps (`datetime.utcnow()`) are modelled as `Nat` values and
  passed in explicitly as a `now` parameter.
- Database rows live in lists inside a `DB` record; SQLAlchemy
  `query(...).filter(...).first()` becomes `List.find?`, `db.add` becomes a
  list append, a row mutation followed by `db.commit()` becomes a `List.map`
  that replaces the row.
- Freshly generated primary keys / checkout ids (`uuid.uuid4()`,
  `secrets.token_urlsafe`) are passed in as explicit `freshId` parameters.
- JSON columns and JSON-decoded payloads are modelled by the `Json` inductive
  below.  A stored JSON *text* column that the code feeds to `json.loads` is
  modelled as `Option Json`: `none` represents a string that fails to parse
  (raising `json.JSONDecodeError`), `some j` a string parsing to `j`.
- Python `None` and JSON `null` coincide; a nullable column of JSON type is
  `Option Json` with the convention that a stored `null` is `none`.
- Outbound HTTP (`requests.post`) is modelled by a `WebhookOutcome`-valued
  environment function supplied to the dispatcher.
-/

namespace AgentRegistry

/-- JSON values, as produced by `json.loads` on a decoded body or stored in a
SQLAlchemy `JSON` column. -/
inductive Json where
  | null
  | bool (b : Bool)
  | num (q : ℚ)
  | str (s : String)
  | arr (elems : List Json)
  | obj (fields : List (String × Json))

/-- Python `==` between the string `name` and an arbitrary JSON value: true
exactly when the value is the equal string (comparing a `str` with any other
type yields `False` in Python). -/
def jsonEqStr (name : String) : Json → Bool
  | .str s => s == name
  | _ => false

/-- Python `pat in s` on strings: substring containment (the empty string is
contained in every string). -/
def strContains (s pat : String) : Bool :=
  pat == "" || (s.splitOn pat).length ≥ 2

/-- Python truthiness of an optional string column (`if agent.webhookUrl:`):
`NULL` and the empty string are falsy. -/
def truthyOptStr : Option String → Bool
  | none => false
  | some s => s != ""

/-- Python `d.get(k, dflt)` on a JSON value: returns the binding for `k` when
the value is a dict, the default when the key is absent, and raises
`AttributeError` (modelled as `.error`) when the value is not a dict. -/
def pyGet (j : Json) (k : String) (dflt : Json) : Except String Json :=
  match j with
  | .obj fields => .ok ((fields.lookup k).getD dflt)
  | _ => .error "AttributeError"

/-- Python `needle in container` for a JSON container: element equality for a
list, key membership for a dict, substring for a string; raises `TypeError`
(modelled as `.error`) on non-iterable values. -/
def pyContains (needle : String) (container : Json) : Except String Bool :=
  match container with
  | .arr l => .ok (l.any (jsonEqStr needle))
  | .obj l => .ok (l.any (fun kv => kv.1 == needle))
  | .str s => .ok (strContains s needle)
  | _ => .error "TypeError"

/-- `s.startswith(pre)` (a structurally recursive stand-in for
`String.startsWith`, which does not reduce inside the kernel). -/
def strStartsWith (s pre : String) : Bool :=
  pre.toList.isPrefixOf s.toList

/-- One fuel-indexed pass of left-to-right, non-overlapping replacement of
`pat` by `rep`, the semantics of Python `str.replace` for a nonempty pattern
(the callers only ever pass the pattern `"Bearer "`).  The fuel argument only
makes the recursion structural; any fuel ≥ the list length is exact. -/
def replaceList (pat rep : List Char) : Nat → List Char → List Char
  | _, [] => []
  | 0, l => l
  | fuel + 1, c :: rest =>
    if !pat.isEmpty && pat.isPrefixOf (c :: rest) then
      rep ++ replaceList pat rep fuel ((c :: rest).drop pat.length)
    else
      c :: replaceList pat rep fuel rest

/-- Python `s.replace(pat, rep)` for a nonempty `pat` (kernel-reducible
stand-in for `String.replace`). -/
def pyReplace (s pat rep : String) : String :=
  ⟨replaceList pat.toList rep.toList s.toList.length s.toList⟩

/-- Numeric value of a list of decimal digit characters. -/
def digitsToNat (cs : List Char) : Nat :=
  cs.foldl (fun n c => n * 10 + (c.toNat - 48)) 0

/-- Python `float(s)` on the decimal strings the routes exchange, landing in
`ℚ` (exact arithmetic): optional sign, an integer part and an optional
fractional part, at least one of which must be nonempty.  `none` models the
`ValueError` Python raises on any other string.  (Exponent/`inf`/`nan` forms
accepted by `float` are outside the data domain of this API and not
modelled.) -/
def parseDecimal (s : String) : Option ℚ :=
  let cs := s.toList
  let sb : Bool × List Char :=
    match cs with
    | '-' :: rest => (true, rest)
    | '+' :: rest => (false, rest)
    | _ => (false, cs)
  let neg := sb.1
  let body := sb.2
  let intPart := body.takeWhile (fun c => c.isDigit)
  let rest := body.dropWhile (fun c => c.isDigit)
  let mag : Option ℚ :=
    match rest with
    | [] =>
      if intPart.isEmpty then none else some ((digitsToNat intPart : ℕ) : ℚ)
    | '.' :: frac =>
      if frac.all (fun c => c.isDigit) && !(intPart.isEmpty && frac.isEmpty) then
        some ((digitsToNat intPart : ℚ) +
          (digitsToNat frac : ℚ) / (10 ^ frac.length : ℚ))
      else none
    | _ => none
  mag.map (fun m => if neg then -m else m)

/-- `models.ApiParam` (pydantic). -/
structure ApiParam where
  id : String
  key : String
  value : String
  type : String

/-- `models.Endpoint` (pydantic). -/
structure Endpoint where
  id : String
  endpoint : String
  apiParams : List ApiParam

/-- `database.Agent` row.  The repository contains two schema generations: the
registration routes (`routes/agents.py`) use `name/image/description/type/
price/url/endpoints/agentOwner`, while the dispatch drafts (`server.py`,
`mcp_server.py`) additionally read `webhookUrl`, `toolCallsExampleJson` and
`tool_schema` from the agent row.  This structure carries the union of the
fields the verified operations touch; operations that do not set a field leave
its default. `toolCallsExampleJson` holds the `json.loads` outcome of the
stored JSON text (`none` = unparsable text), per the file conventions. -/
structure Agent where
  id : String
  name : String := ""
  image : String := ""
  description : String := ""
  type : String := ""
  price : String := ""
  url : String := ""
  endpoints : List Endpoint := []
  agentOwner : Option String := none
  webhookUrl : Option String := none
  toolCallsExampleJson : Option Json := none
  tool_schema : Json := .null
  is_active : Bool := true
  created_at : Nat := 0
  updated_at : Nat := 0

/-- `database.ToolCall` row. -/
structure ToolCall where
  id : String
  agent_id : String
  caller_user_id : String
  tool_name : String
  parameters : Option Json := none
  result : Option Json := none
  cost : ℚ
  payment_status : String := "pending"
  created_at : Nat := 0
  completed_at : Option Nat := none

/-- `database.Payment` row. -/
structure Payment where
  id : String
  tool_call_id : String
  amount : ℚ
  currency : String := "USD"
  coinbase_checkout_id : Option String := none
  status : String := "pending"
  created_at : Nat := 0
  completed_at : Option Nat := none

/-- `database.Token` row. -/
structure Token where
  id : String
  token : String
  agent_id : String
  user_id : String
  is_active : Bool := true
  expires_at : Option Nat := none
  created_at : Nat := 0

/-- The persistent store: one list per table. -/
structure DB where
  agents : List Agent := []
  toolCalls : List ToolCall := []
  payments : List Payment := []
  tokens : List Token := []

/-! ## `mcp_server.py` — authentication middleware -/

/-- The `MCPError` the middleware raises. -/
structure MCPErr where
  msg : String

/-- Authorization context installed on the request by the middleware. -/
structure AuthCtx where
  agent : Agent
  token : Token
  user_id : String

/-- Three-way outcome of a Python membership/lookup step inside a handler:
the check passed, the check failed with a message returned to the caller, or a
Python exception escaped to the surrounding generic handler. -/
inductive PyCheck where
  | allow
  | reject (msg : String)
  | pyError (msg : String)

/-- `method not in agent.tool_schema.get("tools", {})` from the middleware:
returns `.allow` when the tool is declared, `.reject` when not, `.pyError`
when the stored schema is not a dict (`AttributeError`) or the `tools` value
is not iterable (`TypeError`) — those exceptions fall to the middleware's
generic handler. -/
def methodDeclared (schema : Json) (m : String) : PyCheck :=
  match pyGet schema "tools" (.obj []) with
  | .error e => .pyError e
  | .ok tools =>
    match pyContains m tools with
    | .error e => .pyError e
    | .ok true => .allow
    | .ok false => .reject ("Tool \x27" ++ m ++ "\x27 not found for this agent")

/-- `auth_middleware` from `mcp_server.py` (the steps up to installing the
request context; `call_next` is outside the model).  `authHeader` is the raw
`Authorization` header value (empty string when absent), `method` the
JSON-RPC `method` field of the body (`none` when absent).  Note the token
query filters only on exact token string and `is_active`; `expires_at` is
never consulted. -/
def auth_middleware (db : DB) (authHeader : String) (method : Option String) :
    Except MCPErr AuthCtx :=
  if !(strStartsWith authHeader "Bearer ") then
    .error ⟨"Missing or invalid Authorization header"⟩
  else
    let token := pyReplace authHeader "Bearer " ""
    match method with
    | none => .error ⟨"Missing method in request"⟩
    | some m =>
      match db.tokens.find? (fun t => t.token == token && t.is_active) with
      | none => .error ⟨"Invalid or expired token"⟩
      | some token_record =>
        match db.agents.find? (fun a => a.id == token_record.agent_id && a.is_active) with
        | none => .error ⟨"Agent not found or inactive"⟩
        | some agent =>
          match methodDeclared agent.tool_schema m with
          | .allow => .ok ⟨agent, token_record, token_record.user_id⟩
          | .reject msg => .error ⟨msg⟩
          | .pyError _ => .error ⟨"Authentication failed"⟩

/-- Modelled from the spec (§4.1): "past expiry" for a token at time `now`.
The source under `src/` stores `expires_at` and the issuance route computes
it, but no source operation ever evaluates this predicate — it exists here
only to state the spec's expiry requirement against the code. -/
def specTokenPastExpiry (t : Token) (now : Nat) : Bool :=
  match t.expires_at with
  | some e => e < now
  | none => false

/-! ## `server.py` — tool dispatch, finalize, payment creation -/

/-- Outcome of one `requests.post` to a webhook URL: an HTTP 200 whose body
parsed to the given JSON (a 200 whose body fails to parse raises
`requests.exceptions.JSONDecodeError`, a `RequestException`, and is therefore
a `transportError`); a non-200 status with its raw body text; or a
transport-level `requests.exceptions.RequestException` with its message. -/
inductive WebhookOutcome where
  | success (body : Json)
  | httpError (code : Nat) (text : String)
  | transportError (cause : String)

/-- The environment: what one outbound POST to a given URL with a given JSON
payload returns. -/
def WebhookEnv := String → Json → WebhookOutcome

/-- The JSON payload `agent_call_tool` posts to the webhook. -/
def webhookPayload (tool_name : String) (parameters : Json) (tool_call_id : String) : Json :=
  .obj [("tool_name", .str tool_name), ("parameters", parameters),
        ("tool_call_id", .str tool_call_id)]

/-- The `result` value the dispatcher stores after the webhook step of
`agent_call_tool` (`server.py` lines 227–253): the parsed 200 body (Python
`None` — i.e. stored SQL `NULL` — when that body is JSON `null`), a
structured error for a non-200 status or a transport failure, or the
no-webhook error when the agent has no (truthy) webhook URL. -/
def dispatchResult (env : WebhookEnv) (agent : Agent) (tool_name : String)
    (parameters : Json) (tool_call_id : String) : Option Json :=
  if truthyOptStr agent.webhookUrl then
    match env (agent.webhookUrl.getD "") (webhookPayload tool_name parameters tool_call_id) with
    | .success .null => none
    | .success body => some body
    | .httpError code text =>
      some (.obj [("error", .str s!"Webhook call failed with status {code}"),
                  ("details", .str text)])
    | .transportError cause =>
      some (.obj [("error", .str ("Webhook request failed: " ++ cause))])
  else
    some (.obj [("error", .str "No webhook configured for this agent")])

/-- The tool-validation step of `agent_call_tool` (`server.py` lines 199–208):
`json.loads` the agent's `toolCallsExampleJson` (`none` = the text fails to
parse, the `JSONDecodeError` is caught and the call is allowed through), then
`tool_calls_data.get("available_tools", [])` and `tool_name not in
available_tools`.  An `AttributeError`/`TypeError` from those two steps is not
caught by the inner `except (JSONDecodeError, KeyError)` and escapes to the
function's generic `except Exception` handler (`.pyError`). -/
def toolValidate (tj : Option Json) (tool_name : String) : PyCheck :=
  match tj with
  | none => .allow
  | some j =>
    match pyGet j "available_tools" (.arr []) with
    | .error e => .pyError e
    | .ok av =>
      match pyContains tool_name av with
      | .error e => .pyError e
      | .ok true => .allow
      | .ok false =>
        .reject ("Tool \x27" ++ tool_name ++ "\x27 not found in agent\x27s available tools")

/-- Serialization of an optional JSON column into a response payload. -/
def optJson : Option Json → Json
  | none => .null
  | some j => j

/-- `agent_call_tool` from `server.py`: look up the active agent, validate the
tool name against the parsed example JSON, compute the cost as
`float(agent.price) / 1e18` (an unparsable price string raises `ValueError`,
caught by the generic handler before any row is created), insert the ToolCall
row, run the webhook, and finalize the row with the result and completion
time.  Returns the new store and the JSON value the tool returns to its
caller. -/
def agent_call_tool (db : DB) (env : WebhookEnv) (freshId : String) (now : Nat)
    (agent_id tool_name : String) (parameters : Json) (caller_user_id : String) :
    DB × Json :=
  match db.agents.find? (fun a => a.id == agent_id && a.is_active) with
  | none => (db, .obj [("error", .str "Agent not found")])
  | some agent =>
    match toolValidate agent.toolCallsExampleJson tool_name with
    | .reject msg => (db, .obj [("error", .str msg)])
    | .pyError msg => (db, .obj [("error", .str msg)])
    | .allow =>
      match parseDecimal agent.price with
      | none =>
        (db, .obj [("error",
          .str ("could not convert string to float: \x27" ++ agent.price ++ "\x27"))])
      | some p =>
        let cost_in_eth : ℚ := p / (10 ^ 18 : ℚ)
        let tool_call : ToolCall :=
          { id := freshId, agent_id := agent_id, caller_user_id := caller_user_id,
            tool_name := tool_name, parameters := some parameters, result := none,
            cost := cost_in_eth, payment_status := "pending",
            created_at := now, completed_at := none }
        let result := dispatchResult env agent tool_name parameters freshId
        let tool_call' := { tool_call with result := result, completed_at := some now }
        ({ db with toolCalls := db.toolCalls ++ [tool_call'] },
         .obj [("tool_call_id", .str freshId), ("agent_id", .str agent_id),
               ("tool_name", .str tool_name), ("result", optJson result),
               ("cost", .num cost_in_eth), ("status", .str "completed")])

/-- `tool_call_finalize` from `server.py`: refuse to touch a missing or
already-completed ToolCall, otherwise store the supplied result (a Python
dict, hence non-null) and the completion time. -/
def tool_call_finalize (db : DB) (now : Nat) (tool_call_id : String)
    (result : List (String × Json)) : DB × Json :=
  match db.toolCalls.find? (fun tc => tc.id == tool_call_id) with
  | none => (db, .obj [("error", .str "Tool call not found")])
  | some tool_call =>
    if tool_call.completed_at.isSome then
      (db, .obj [("error", .str "Tool call already completed")])
    else
      let tc' := { tool_call with result := some (.obj result), completed_at := some now }
      ({ db with toolCalls :=
           db.toolCalls.map (fun t => if t.id == tool_call_id then tc' else t) },
       .obj [("tool_call_id", .str tool_call_id), ("status", .str "finalized"),
             ("result", .obj result), ("completed_at", .num now)])

/-! ## `routes/mcp.py` — payments -/

/-- `fastapi.HTTPException` as the routes raise it. -/
structure HErr where
  status_code : Nat
  detail : String

/-- `models.PaymentRequest`. -/
structure PaymentRequest where
  tool_call_id : String
  amount : ℚ
  currency : String := "USD"

/-- `create_payment` from `routes/mcp.py` (`POST /api/tokens/create-payment`;
`payment_create` in `server.py` is the same algorithm): 404 when the ToolCall
does not exist, otherwise unconditionally insert a new `pending` Payment row
and assign it the fresh checkout reference `checkout_<suffix>`.  The two
commits of the source are collapsed into one state transition. -/
def create_payment (db : DB) (freshId checkoutSuffix : String) (now : Nat)
    (req : PaymentRequest) : Except HErr (DB × Payment) :=
  match db.toolCalls.find? (fun tc => tc.id == req.tool_call_id) with
  | none => .error ⟨404, "Tool call not found"⟩
  | some _ =>
    let payment : Payment :=
      { id := freshId, tool_call_id := req.tool_call_id, amount := req.amount,
        currency := req.currency,
        coinbase_checkout_id := some ("checkout_" ++ checkoutSuffix),
        status := "pending", created_at := now, completed_at := none }
    .ok ({ db with payments := db.payments ++ [payment] }, payment)

/-- The inbound settlement webhook body, restricted per §6 to its two
string-valued fields (`none` = field absent from the JSON body). -/
structure WebhookData where
  checkout_id : Option String := none
  status : Option String := none

/-- `handle_payment_webhook` from `routes/mcp.py`: 400 when either field is
missing or falsy (empty), 404 when no Payment carries the checkout reference,
otherwise set the Payment's status to the delivered value; when that value is
`"completed"`, also stamp the Payment's completion time and cascade
`payment_status := "paid"` onto the referenced ToolCall (when it exists).  No
cascade happens for any other status value. -/
def handle_payment_webhook (db : DB) (now : Nat) (wd : WebhookData) :
    Except HErr (DB × Json) :=
  match wd.checkout_id, wd.status with
  | some c, some st =>
    if c == "" || st == "" then .error ⟨400, "Invalid webhook data"⟩
    else
      match db.payments.find? (fun p => p.coinbase_checkout_id == some c) with
      | none => .error ⟨404, "Payment not found"⟩
      | some payment =>
        let payment' :=
          if st == "completed" then
            { payment with status := st, completed_at := some now }
          else
            { payment with status := st }
        let db' : DB :=
          { db with
            payments := db.payments.map (fun q => if q.id == payment.id then payment' else q),
            toolCalls :=
              if st == "completed" then
                db.toolCalls.map (fun t =>
                  if t.id == payment.tool_call_id then { t with payment_status := "paid" } else t)
              else db.toolCalls }
        .ok (db', .obj [("status", .str "webhook processed")])
  | _, _ => .error ⟨400, "Invalid webhook data"⟩

/-! ## `routes/agents.py` — registration and update -/

/-- `models.AgentRegisterRequest`. -/
structure AgentRegisterRequest where
  name : String
  image : String
  description : String
  type : String
  price : String
  url : String
  endpoints : List Endpoint
  agentOwner : Option String := none

/-- The valid agent types of `routes/agents.py`. -/
def validTypes : List String := ["per-use", "subscription", "free", "one-time"]

/-- The Agent row `register_agent` inserts for the request `r`: note
`agentOwner` is set to the literal `"0xxx....."`, not to `r.agentOwner`. -/
def registeredAgent (freshId : String) (now : Nat) (r : AgentRegisterRequest) : Agent :=
  { id := freshId, name := r.name, image := r.image, description := r.description,
    type := r.type, price := r.price, url := r.url, endpoints := r.endpoints,
    agentOwner := some "0xxx.....", is_active := true,
    created_at := now, updated_at := now }

/-- `register_agent` from `routes/agents.py`: validate required fields, price
(parsable and > 0), type, endpoints nonempty and — when a truthy `agentOwner`
is supplied — the 42-character `0x`-prefixed address shape; then insert the
new agent.  In the source every raised `HTTPException` is caught by the
function's own `except Exception` handler and re-raised as a 500
`"Server error: ..."`; the model keeps the underlying detail in the 500. -/
def register_agent (db : DB) (freshId : String) (now : Nat)
    (r : AgentRegisterRequest) : Except HErr (DB × Json) :=
  if r.name == "" || r.image == "" || r.description == "" then
    .error ⟨500, "Server error: Missing required fields: name, image, or description"⟩
  else
    match parseDecimal r.price with
    | none => .error ⟨500, "Server error: Price must be a valid number"⟩
    | some p =>
      if p ≤ 0 then .error ⟨500, "Server error: Price must be greater than 0"⟩
      else if !(validTypes.contains r.type) then
        .error ⟨500, "Server error: Invalid agent type"⟩
      else if r.endpoints.isEmpty then
        .error ⟨500, "Server error: At least one endpoint is required"⟩
      else if truthyOptStr r.agentOwner &&
          !(strStartsWith (r.agentOwner.getD "") "0x" && (r.agentOwner.getD "").length == 42) then
        .error ⟨500, "Server error: Invalid Ethereum address format"⟩
      else
        .ok ({ db with agents := db.agents ++ [registeredAgent freshId now r] },
             .obj [("agent_id", .str freshId),
                   ("message", .str "Agent registered successfully"),
                   ("status", .str "active")])

/-- `update_agent` from `routes/agents.py`: 404 when the agent id is unknown
(no `is_active` filter here), validate price and type, then overwrite the
agent's fields — including `price` and, unlike registration, the supplied
`agentOwner` — and stamp `updated_at`.  ToolCall rows are never touched. -/
def update_agent (db : DB) (now : Nat) (agent_id : String)
    (r : AgentRegisterRequest) : Except HErr (DB × Json) :=
  match db.agents.find? (fun a => a.id == agent_id) with
  | none => .error ⟨404, "Agent not found"⟩
  | some agent =>
    match parseDecimal r.price with
    | none => .error ⟨400, "Price must be a valid number"⟩
    | some p =>
      if p ≤ 0 then .error ⟨400, "Price must be greater than 0"⟩
      else if !(validTypes.contains r.type) then
        .error ⟨400, "Invalid agent type"⟩
      else
        let agent' := { agent with
          name := r.name, image := r.image, description := r.description,
          type := r.type, price := r.price, url := r.url,
          endpoints := r.endpoints, agentOwner := r.agentOwner, updated_at := now }
        .ok ({ db with agents := db.agents.map (fun b => if b.id == agent_id then agent' else b) },
             .obj [("agent_id", .str agent_id),
                   ("message", .str "Agent updated successfully")])

/-! ## Invariants and helper lemmas -/

/-- The ToolCall completion invariant of §3 / §8 of the spec:
`completed_at` is set exactly when `result` is non-null. -/
def completionInv (tc : ToolCall) : Prop :=
  tc.completed_at.isSome ↔ tc.result.isSome

/-- `find?` through a `map` that rewrites exactly the rows matching the
predicate, when the rewrite preserves the predicate. -/
theorem find?_map_ite {α : Type} (l : List α) (p : α → Bool) (g : α → α)
    (hg : ∀ a, p a = true → p (g a) = true) :
    (l.map (fun a => if p a then g a else a)).find? p = (l.find? p).map g := by
  induction l with
  | nil => rfl
  | cons a l ih =>
    by_cases h : p a = true
    · simp only [List.map_cons, if_pos h,
        List.find?_cons_of_pos _ (hg a h), List.find?_cons_of_pos _ h, Option.map_some']
    · simp only [List.map_cons, if_neg h, List.find?_cons_of_neg _ h,
        List.find?_cons_of_neg _ h, ih]

/-- Every value `dispatchResult` stores is non-null, provided the webhook
environment never answers HTTP 200 with a JSON `null` body. -/
theorem dispatchResult_isSome (env : WebhookEnv) (agent : Agent)
    (tool_name : String) (parameters : Json) (tool_call_id : String)
    (h : ∀ url payload, env url payload ≠ .success .null) :
    (dispatchResult env agent tool_name parameters tool_call_id).isSome := by
  unfold dispatchResult
  split
  · split
    · next heq => exact absurd heq (h _ _)
    · rfl
    · rfl
    · rfl
  · rfl

/-! ## Concrete fixtures used by counterexamples and witnesses -/

/-- A token that is active but whose `expires_at` lies in the past for any
`now ≥ 1`. -/
def tokC1 : Token :=
  { id := "t1", token := "tok1", agent_id := "a1", user_id := "u1",
    is_active := true, expires_at := some 0 }

/-- An active agent declaring the tool `add` in its `tool_schema`. -/
def agC1 : Agent :=
  { id := "a1", is_active := true,
    tool_schema := .obj [("tools", .obj [("add", .obj [])])] }

/-- Store holding `agC1` and `tokC1`. -/
def dbC1 : DB := { agents := [agC1], tokens := [tokC1] }

/-- An active agent whose stored example JSON fails to parse and whose
webhook is configured; price is 2 wei. -/
def agC2 : Agent :=
  { id := "a1", price := "2", webhookUrl := some "http://agent.example/hook",
    toolCallsExampleJson := none, is_active := true }

/-- Store holding `agC2` and nothing else. -/
def dbC2 : DB := { agents := [agC2] }

/-- A webhook environment that always answers HTTP 200 with body `null`. -/
def envNull : WebhookEnv := fun _ _ => .success .null

/-! ## C1 -/

/-- C1 (refuting evaluation): `auth_middleware` accepts a bearer token whose
`expires_at` is already in the past (`specTokenPastExpiry tokC1 1 = true`
while the record is active), because the token query filters only on the
token string and `is_active` and never consults `expires_at`.  The claim —
"a token … past expiry always fails" — is therefore false on the code; the
expiry column and the "Invalid or expired token" message show the check was
intended. -/
theorem auth_accepts_expired_active_token :
    specTokenPastExpiry tokC1 1 = true ∧ tokC1.is_active = true ∧
    auth_middleware dbC1 "Bearer tok1" (some "add") = .ok ⟨agC1, tokC1, "u1"⟩ :=
  ⟨rfl, rfl, rfl⟩

/-! ## C2 -/

/-- C2 (counterexample): a webhook that answers HTTP 200 with JSON `null`
makes `agent_call_tool` finalize the ToolCall with `completed_at` set and
`result = NULL` — `completed_at != null ⇔ result != null` fails after this
completed Orchestrator run. -/
theorem dispatch_null_body_breaks_completion_invariant :
    ((agent_call_tool dbC2 envNull "tc1" 5 "a1" "add" (.obj []) "u1").1.toolCalls.map
      (fun tc => (tc.completed_at, tc.result))) = [(some 5, none)] ∧
    ¬ (∀ tc ∈ (agent_call_tool dbC2 envNull "tc1" 5 "a1" "add" (.obj []) "u1").1.toolCalls,
        completionInv tc) := by
  refine ⟨rfl, fun h => ?_⟩
  have hmap : ((agent_call_tool dbC2 envNull "tc1" 5 "a1" "add" (.obj []) "u1").1.toolCalls.map
      (fun tc => (tc.completed_at, tc.result))) = [(some 5, none)] := rfl
  cases hl : (agent_call_tool dbC2 envNull "tc1" 5 "a1" "add" (.obj []) "u1").1.toolCalls with
  | nil => rw [hl] at hmap; simp at hmap
  | cons t rest =>
    rw [hl] at hmap
    cases rest with
    | cons _ _ => simp at hmap
    | nil =>
      simp only [List.map_cons, List.map_nil, List.cons.injEq, Prod.mk.injEq, and_true] at hmap
      have h2 := h t (by rw [hl]; exact List.mem_singleton.mpr rfl)
      rw [completionInv, hmap.1, hmap.2] at h2
      simp at h2

/-- C2 (amended): after every completed run of `agent_call_tool` under a
webhook environment that never returns HTTP 200 with a JSON `null` body, and
after every run of `tool_call_finalize`, all ToolCall rows satisfy
`completed_at != null ⇔ result != null` (assuming they did before).  The
amendment excludes exactly the null-body case exhibited by the
counterexample. -/
theorem completion_invariant_holds_amended :
    (∀ (db : DB) (env : WebhookEnv) (freshId : String) (now : Nat)
       (agent_id tool_name : String) (parameters : Json) (caller_user_id : String),
       (∀ url payload, env url payload ≠ .success .null) →
       (∀ tc ∈ db.toolCalls, completionInv tc) →
       ∀ tc ∈ (agent_call_tool db env freshId now
                agent_id tool_name parameters caller_user_id).1.toolCalls,
         completionInv tc) ∧
    (∀ (db : DB) (now : Nat) (tool_call_id : String) (r : List (String × Json)),
       (∀ tc ∈ db.toolCalls, completionInv tc) →
       ∀ tc ∈ (tool_call_finalize db now tool_call_id r).1.toolCalls,
         completionInv tc) := by
  constructor
  · intro db env freshId now agent_id tool_name parameters caller_user_id henv hinv tc htc
    unfold agent_call_tool at htc
    split at htc
    · exact hinv tc htc
    · split at htc
      · exact hinv tc htc
      · exact hinv tc htc
      · split at htc
        · exact hinv tc htc
        · simp only [List.mem_append, List.mem_singleton] at htc
          rcases htc with htc | rfl
          · exact hinv tc htc
          · unfold completionInv
            simp only [Option.isSome_some, true_iff]
            exact dispatchResult_isSome env _ tool_name parameters freshId henv
  · intro db now tool_call_id r hinv tc htc
    unfold tool_call_finalize at htc
    split at htc
    · exact hinv tc htc
    · split at htc
      · exact hinv tc htc
      · simp only [List.mem_map] at htc
        rcases htc with ⟨t, ht, hteq⟩
        by_cases hid : t.id == tool_call_id
        · rw [if_pos hid] at hteq
          rw [← hteq]
          unfold completionInv
          simp
        · rw [if_neg hid] at hteq
          rw [← hteq]
          exact hinv t ht

/-- The parsed value of the price string `"2"` as `parseDecimal` builds it. -/
def pW : ℚ := ((2 : ℕ) : ℚ)

/-- A webhook environment in which every outbound POST fails at the transport
level with cause `Connection refused`. -/
def envFail : WebhookEnv := fun _ _ => .transportError "Connection refused"

/-- The ToolCall row left by dispatching `add` against `dbC2` under `envFail`
at time 5 with fresh id `tc1`. -/
def tcW2 : ToolCall :=
  { id := "tc1", agent_id := "a1", caller_user_id := "u1", tool_name := "add",
    parameters := some (.obj []),
    result := some (.obj [("error", .str "Webhook request failed: Connection refused")]),
    cost := pW / 10 ^ 18, payment_status := "pending",
    created_at := 5, completed_at := some 5 }

/-- A pending ToolCall row (no result, no completion). -/
def tcF : ToolCall :=
  { id := "tc9", agent_id := "a1", caller_user_id := "u1", tool_name := "add",
    cost := 1 }

/-- Store holding only the pending ToolCall `tcF`. -/
def dbF : DB := { toolCalls := [tcF] }

/-- The row `tcF` becomes after being finalized at time 7 with result
`{ok: true}`. -/
def tcFdone : ToolCall :=
  { id := "tc9", agent_id := "a1", caller_user_id := "u1", tool_name := "add",
    parameters := none, result := some (.obj [("ok", .bool true)]), cost := 1,
    payment_status := "pending", created_at := 0, completed_at := some 7 }

/-- C2 witness: the amended invariant evaluated on concrete runs — a dispatch
whose webhook fails at transport level, and a finalize of a pending row. -/
theorem completion_invariant_holds_amended_witness :
    completionInv tcW2 ∧ completionInv tcFdone := by
  constructor
  · exact completion_invariant_holds_amended.1 dbC2 envFail "tc1" 5 "a1" "add" (.obj []) "u1"
      (fun _ _ h => WebhookOutcome.noConfusion h)
      (by intro tc h; simp [dbC2] at h)
      tcW2
      (by rw [show (agent_call_tool dbC2 envFail "tc1" 5 "a1" "add" (.obj []) "u1").1.toolCalls
            = [tcW2] from rfl]
          exact List.mem_singleton.mpr rfl)
  · exact completion_invariant_holds_amended.2 dbF 7 "tc9" [("ok", .bool true)]
      (by intro tc h
          simp only [dbF, List.mem_singleton] at h
          subst h
          rw [completionInv]
          exact Iff.rfl)
      tcFdone
      (by rw [show (tool_call_finalize dbF 7 "tc9" [("ok", .bool true)]).1.toolCalls
            = [tcFdone] from rfl]
          exact List.mem_singleton.mpr rfl)

/-! ## C3 -/

/-- C3: finalizing a pending ToolCall succeeds and stores the supplied
payload; finalizing the same id a second time returns the
`Tool call already completed` error, leaves the store untouched, and the
stored result remains the first call's payload. -/
theorem tool_call_finalize_idempotent
    (db : DB) (now1 now2 : Nat) (tool_call_id : String)
    (r1 r2 : List (String × Json)) (tc : ToolCall)
    (hfind : db.toolCalls.find? (fun t => t.id == tool_call_id) = some tc)
    (hpend : tc.completed_at = none) :
    (tool_call_finalize db now1 tool_call_id r1).2
      = .obj [("tool_call_id", .str tool_call_id), ("status", .str "finalized"),
              ("result", .obj r1), ("completed_at", .num now1)] ∧
    (tool_call_finalize db now1 tool_call_id r1).1.toolCalls.find?
        (fun t => t.id == tool_call_id)
      = some { tc with result := some (.obj r1), completed_at := some now1 } ∧
    tool_call_finalize (tool_call_finalize db now1 tool_call_id r1).1 now2 tool_call_id r2
      = ((tool_call_finalize db now1 tool_call_id r1).1,
         .obj [("error", .str "Tool call already completed")]) := by
  have hid : (tc.id == tool_call_id) = true := by
    have h := List.find?_some hfind
    exact h
  have h1 : tool_call_finalize db now1 tool_call_id r1
      = ({ db with toolCalls := db.toolCalls.map (fun t =>
             if t.id == tool_call_id then
               { tc with result := some (.obj r1), completed_at := some now1 }
             else t) },
         .obj [("tool_call_id", .str tool_call_id), ("status", .str "finalized"),
               ("result", .obj r1), ("completed_at", .num now1)]) := by
    unfold tool_call_finalize
    rw [hfind]
    simp [hpend]
  have hfind' : (db.toolCalls.map (fun t =>
        if t.id == tool_call_id then
          { tc with result := some (.obj r1), completed_at := some now1 }
        else t)).find? (fun t => t.id == tool_call_id)
      = some { tc with result := some (.obj r1), completed_at := some now1 } := by
    rw [find?_map_ite db.toolCalls (fun t => t.id == tool_call_id)
          (fun _ => { tc with result := some (.obj r1), completed_at := some now1 })
          (fun a _ => hid),
        hfind]
    rfl
  refine ⟨by rw [h1], by rw [h1]; exact hfind', ?_⟩
  rw [h1]
  unfold tool_call_finalize
  rw [hfind']
  rfl

/-- C3 witness: both finalize calls evaluated on the concrete pending row
`tcF`. -/
theorem tool_call_finalize_idempotent_witness :
    (tool_call_finalize dbF 7 "tc9" [("ok", .bool true)]).2
      = .obj [("tool_call_id", .str "tc9"), ("status", .str "finalized"),
              ("result", .obj [("ok", .bool true)]), ("completed_at", .num 7)] ∧
    (tool_call_finalize dbF 7 "tc9" [("ok", .bool true)]).1.toolCalls.find?
        (fun t => t.id == "tc9")
      = some { tcF with result := some (.obj [("ok", .bool true)]), completed_at := some 7 } ∧
    tool_call_finalize (tool_call_finalize dbF 7 "tc9" [("ok", .bool true)]).1 9 "tc9"
        [("ok", .bool false)]
      = ((tool_call_finalize dbF 7 "tc9" [("ok", .bool true)]).1,
         .obj [("error", .str "Tool call already completed")]) :=
  tool_call_finalize_idempotent dbF 7 9 "tc9" [("ok", .bool true)] [("ok", .bool false)]
    tcF rfl rfl

/-! ## C4 -/

/-- C4: a settlement notification matching a stored Payment.  With status
`completed` the Payment becomes `completed` with its completion timestamp
set, and the referenced ToolCall's `payment_status` becomes `paid`; with
status `failed` the ToolCall list is untouched (its `payment_status` stays
whatever it was — `pending` in the scenario of the claim), and only the
Payment's status changes. -/
theorem settlement_cascade
    (db : DB) (now : Nat) (c : String) (payment : Payment) (tc : ToolCall)
    (hc : (c == "") = false)
    (hp : db.payments.find? (fun q => q.coinbase_checkout_id == some c) = some payment)
    (htc : db.toolCalls.find? (fun t => t.id == payment.tool_call_id) = some tc) :
    (∃ dbc, handle_payment_webhook db now ⟨some c, some "completed"⟩
        = .ok (dbc, .obj [("status", .str "webhook processed")]) ∧
      dbc.payments.find? (fun q => q.id == payment.id)
        = some { payment with status := "completed", completed_at := some now } ∧
      dbc.toolCalls.find? (fun t => t.id == payment.tool_call_id)
        = some { tc with payment_status := "paid" }) ∧
    (∃ dbf, handle_payment_webhook db now ⟨some c, some "failed"⟩
        = .ok (dbf, .obj [("status", .str "webhook processed")]) ∧
      dbf.payments.find? (fun q => q.id == payment.id)
        = some { payment with status := "failed" } ∧
      dbf.toolCalls = db.toolCalls) := by
  have hmem : payment ∈ db.payments := List.mem_of_find?_eq_some hp
  have hpid : ∃ q0, db.payments.find? (fun q => q.id == payment.id) = some q0 := by
    rw [← Option.isSome_iff_exists]
    rw [List.find?_isSome]
    exact ⟨payment, hmem, by simp⟩
  obtain ⟨q0, hq0⟩ := hpid
  constructor
  · refine ⟨{ db with
        payments := db.payments.map (fun q =>
          if q.id == payment.id then
            { payment with status := "completed", completed_at := some now } else q),
        toolCalls := db.toolCalls.map (fun t =>
          if t.id == payment.tool_call_id then { t with payment_status := "paid" } else t) },
      ?_, ?_, ?_⟩
    · unfold handle_payment_webhook
      simp [hp, hc]
    · rw [show ({ db with
          payments := db.payments.map (fun q =>
            if q.id == payment.id then
              { payment with status := "completed", completed_at := some now } else q),
          toolCalls := db.toolCalls.map (fun t =>
            if t.id == payment.tool_call_id then { t with payment_status := "paid" } else t) } : DB).payments
          = db.payments.map (fun q =>
            if q.id == payment.id then
              { payment with status := "completed", completed_at := some now } else q) from rfl,
        find?_map_ite db.payments (fun q => q.id == payment.id)
            (fun _ => { payment with status := "completed", completed_at := some now })
            (fun a _ => by simp), hq0]
      rfl
    · rw [show ({ db with
          payments := db.payments.map (fun q =>
            if q.id == payment.id then
              { payment with status := "completed", completed_at := some now } else q),
          toolCalls := db.toolCalls.map (fun t =>
            if t.id == payment.tool_call_id then { t with payment_status := "paid" } else t) } : DB).toolCalls
          = db.toolCalls.map (fun t =>
            if t.id == payment.tool_call_id then { t with payment_status := "paid" } else t) from rfl,
        find?_map_ite db.toolCalls (fun t => t.id == payment.tool_call_id)
            (fun t => { t with payment_status := "paid" })
            (fun a h => h), htc]
      rfl
  · refine ⟨{ db with
        payments := db.payments.map (fun q =>
          if q.id == payment.id then { payment with status := "failed" } else q) },
      ?_, ?_, rfl⟩
    · unfold handle_payment_webhook
      simp [hp, hc]
    · rw [show ({ db with
          payments := db.payments.map (fun q =>
            if q.id == payment.id then { payment with status := "failed" } else q) } : DB).payments
          = db.payments.map (fun q =>
            if q.id == payment.id then { payment with status := "failed" } else q) from rfl,
        find?_map_ite db.payments (fun q => q.id == payment.id)
            (fun _ => { payment with status := "failed" })
            (fun a _ => by simp), hq0]
      rfl

/-- A pending ToolCall awaiting payment. -/
def tcP : ToolCall :=
  { id := "tcx", agent_id := "a1", caller_user_id := "u1", tool_name := "add", cost := 1 }

/-- A pending Payment for `tcP` carrying checkout reference `checkout_ab`. -/
def pmtP : Payment :=
  { id := "p1", tool_call_id := "tcx", amount := 5,
    coinbase_checkout_id := some "checkout_ab", status := "pending" }

/-- Store holding `tcP` and `pmtP`. -/
def dbP : DB := { toolCalls := [tcP], payments := [pmtP] }

/-- C4 witness: both settlement outcomes evaluated on the concrete pending
Payment `pmtP` linked to `tcP`. -/
theorem settlement_cascade_witness :
    (∃ dbc, handle_payment_webhook dbP 11 ⟨some "checkout_ab", some "completed"⟩
        = .ok (dbc, .obj [("status", .str "webhook processed")]) ∧
      dbc.payments.find? (fun q => q.id == pmtP.id)
        = some { pmtP with status := "completed", completed_at := some 11 } ∧
      dbc.toolCalls.find? (fun t => t.id == pmtP.tool_call_id)
        = some { tcP with payment_status := "paid" }) ∧
    (∃ dbf, handle_payment_webhook dbP 11 ⟨some "checkout_ab", some "failed"⟩
        = .ok (dbf, .obj [("status", .str "webhook processed")]) ∧
      dbf.payments.find? (fun q => q.id == pmtP.id)
        = some { pmtP with status := "failed" } ∧
      dbf.toolCalls = dbP.toolCalls) :=
  settlement_cascade dbP 11 "checkout_ab" pmtP tcP rfl rfl rfl

/-! ## C5 -/

/-- C5: the cost of a dispatched ToolCall is the agent's price parsed as a
number and divided by `10^18`, fixed at creation time: the row
`agent_call_tool` appends carries exactly that cost, and `update_agent` —
which overwrites the agent's `price` — never touches any ToolCall row, so
every stored cost is unchanged by a price update. -/
theorem dispatch_cost_frozen
    (db : DB) (env : WebhookEnv) (freshId : String) (now : Nat)
    (agent_id tool_name : String) (parameters : Json) (caller_user_id : String)
    (agent : Agent) (p : ℚ)
    (hfind : db.agents.find? (fun a => a.id == agent_id && a.is_active) = some agent)
    (hval : toolValidate agent.toolCallsExampleJson tool_name = .allow)
    (hprice : parseDecimal agent.price = some p) :
    ((agent_call_tool db env freshId now
        agent_id tool_name parameters caller_user_id).1.toolCalls.getLast?).map ToolCall.cost
      = some (p / (10 ^ 18 : ℚ)) ∧
    (∀ (db2 : DB) (now2 : Nat) (aid2 : String) (r2 : AgentRegisterRequest) (out : DB × Json),
       update_agent db2 now2 aid2 r2 = .ok out → out.1.toolCalls = db2.toolCalls) := by
  constructor
  · unfold agent_call_tool
    rw [hfind]
    simp only [hval, hprice]
    rw [List.getLast?_concat]
    rfl
  · intro db2 now2 aid2 r2 out h
    unfold update_agent at h
    split at h
    · exact absurd h (by simp)
    · split at h
      · exact absurd h (by simp)
      · split at h
        · exact absurd h (by simp)
        · split at h
          · exact absurd h (by simp)
          · simp only [Except.ok.injEq] at h
            rw [← h]

/-- A sample endpoint for registration/update requests. -/
def epU : Endpoint := { id := "e1", endpoint := "/send", apiParams := [] }

/-- A well-formed update request raising the price to 3 and carrying a valid
42-character address. -/
def rU : AgentRegisterRequest :=
  { name := "N", image := "I", description := "D", type := "free", price := "3",
    url := "U", endpoints := [epU],
    agentOwner := some "0xaaaaaaaaaaaaaaaaaaaaaaaaaaaaaaaaaaaaaaaa" }

/-- Store holding agent `agC2` and the pending ToolCall `tcP`. -/
def dbU : DB := { agents := [agC2], toolCalls := [tcP] }

/-- Agent `agC2` after the update `rU` at time 9. -/
def agU : Agent :=
  { agC2 with
    name := "N", image := "I", description := "D", type := "free",
    price := "3", url := "U", endpoints := [epU],
    agentOwner := some "0xaaaaaaaaaaaaaaaaaaaaaaaaaaaaaaaaaaaaaaaa",
    updated_at := 9 }

/-- The output `update_agent` produces on `dbU 9 "a1" rU`. -/
def outU : DB × Json :=
  ({ agents := [agU], toolCalls := [tcP] },
   .obj [("agent_id", .str "a1"), ("message", .str "Agent updated successfully")])

/-- C5 witness: the concrete dispatch against `dbC2` stores cost
`pW / 10^18`, and a concrete price-changing `update_agent` run leaves the
ToolCall table unchanged. -/
theorem dispatch_cost_frozen_witness :
    (((agent_call_tool dbC2 envFail "tc1" 5 "a1" "add" (.obj []) "u1").1.toolCalls.getLast?).map
        ToolCall.cost = some (pW / (10 ^ 18 : ℚ))) ∧
    outU.1.toolCalls = dbU.toolCalls :=
  ⟨(dispatch_cost_frozen dbC2 envFail "tc1" 5 "a1" "add" (.obj []) "u1" agC2 pW
      rfl rfl rfl).1,
   (dispatch_cost_frozen dbC2 envFail "tc1" 5 "a1" "add" (.obj []) "u1" agC2 pW
      rfl rfl rfl).2 dbU 9 "a1" rU outU rfl⟩

/-! ## C6 -/

/-- C6: when the outbound webhook call fails at the transport level, the
dispatcher never raises — the run returns normally with a
`Webhook request failed: <cause>` error payload, and the ToolCall is still
created and finalized with that payload as its stored result while its
`payment_status` stays `pending`. -/
theorem webhook_transport_failure_recorded
    (db : DB) (env : WebhookEnv) (freshId : String) (now : Nat)
    (agent_id tool_name : String) (parameters : Json) (caller_user_id : String)
    (agent : Agent) (p : ℚ) (url cause : String)
    (hfind : db.agents.find? (fun a => a.id == agent_id && a.is_active) = some agent)
    (hval : toolValidate agent.toolCallsExampleJson tool_name = .allow)
    (hprice : parseDecimal agent.price = some p)
    (hurl : agent.webhookUrl = some url)
    (hne : (url != "") = true)
    (henv : env url (webhookPayload tool_name parameters freshId) = .transportError cause) :
    agent_call_tool db env freshId now agent_id tool_name parameters caller_user_id
      = ({ db with toolCalls := db.toolCalls ++
             [{ id := freshId, agent_id := agent_id, caller_user_id := caller_user_id,
                tool_name := tool_name, parameters := some parameters,
                result := some (.obj [("error",
                  .str ("Webhook request failed: " ++ cause))]),
                cost := p / (10 ^ 18 : ℚ), payment_status := "pending",
                created_at := now, completed_at := some now }] },
         .obj [("tool_call_id", .str freshId), ("agent_id", .str agent_id),
               ("tool_name", .str tool_name),
               ("result", .obj [("error", .str ("Webhook request failed: " ++ cause))]),
               ("cost", .num (p / (10 ^ 18 : ℚ))), ("status", .str "completed")]) := by
  have hdisp : dispatchResult env agent tool_name parameters freshId
      = some (.obj [("error", .str ("Webhook request failed: " ++ cause))]) := by
    unfold dispatchResult
    rw [hurl]
    simp only [truthyOptStr, hne, if_true, Option.getD_some, henv]
  unfold agent_call_tool
  rw [hfind]
  simp only [hval, hprice, hdisp]
  rfl

/-- C6 witness: the transport-failing environment `envFail` evaluated against
the concrete agent `agC2`. -/
theorem webhook_transport_failure_recorded_witness :
    agent_call_tool dbC2 envFail "tc1" 5 "a1" "add" (.obj []) "u1"
      = ({ dbC2 with toolCalls := dbC2.toolCalls ++
             [{ id := "tc1", agent_id := "a1", caller_user_id := "u1",
                tool_name := "add", parameters := some (.obj []),
                result := some (.obj [("error",
                  .str ("Webhook request failed: " ++ "Connection refused"))]),
                cost := pW / (10 ^ 18 : ℚ), payment_status := "pending",
                created_at := 5, completed_at := some 5 }] },
         .obj [("tool_call_id", .str "tc1"), ("agent_id", .str "a1"),
               ("tool_name", .str "add"),
               ("result", .obj [("error",
                 .str ("Webhook request failed: " ++ "Connection refused"))]),
               ("cost", .num (pW / (10 ^ 18 : ℚ))), ("status", .str "completed")]) :=
  webhook_transport_failure_recorded dbC2 envFail "tc1" 5 "a1" "add" (.obj []) "u1"
    agC2 pW "http://agent.example/hook" "Connection refused" rfl rfl rfl rfl rfl rfl

/-! ## C7 -/

/-- C7: a dispatch naming a tool that is not in the agent's parsed
`available_tools` list is rejected with the tool-not-found error, and the
store — in particular the ToolCall table — is returned unchanged: no row is
created for the rejected request. -/
theorem unknown_tool_rejected_without_record
    (db : DB) (env : WebhookEnv) (freshId : String) (now : Nat)
    (agent_id tool_name : String) (parameters : Json) (caller_user_id : String)
    (agent : Agent) (fields : List (String × Json)) (l : List Json)
    (hfind : db.agents.find? (fun a => a.id == agent_id && a.is_active) = some agent)
    (hjson : agent.toolCallsExampleJson = some (.obj fields))
    (hav : fields.lookup "available_tools" = some (.arr l))
    (hmem : l.any (jsonEqStr tool_name) = false) :
    agent_call_tool db env freshId now agent_id tool_name parameters caller_user_id
      = (db, .obj [("error",
          .str ("Tool \x27" ++ tool_name ++ "\x27 not found in agent\x27s available tools"))]) := by
  have hval : toolValidate agent.toolCallsExampleJson tool_name
      = .reject ("Tool \x27" ++ tool_name ++ "\x27 not found in agent\x27s available tools") := by
    unfold toolValidate pyGet pyContains
    rw [hjson]
    simp [hav, hmem]
  unfold agent_call_tool
  rw [hfind]
  simp only [hval]

/-- An active agent whose example JSON declares only the tool `add`. -/
def agC7 : Agent :=
  { id := "a1", price := "2",
    toolCallsExampleJson := some (.obj [("available_tools", .arr [.str "add"])]),
    is_active := true }

/-- Store holding `agC7` and one unrelated pending ToolCall. -/
def dbC7 : DB := { agents := [agC7], toolCalls := [tcP] }

/-- C7 witness: requesting the undeclared tool `mul` against `agC7` returns
the rejection error with the store untouched. -/
theorem unknown_tool_rejected_without_record_witness :
    agent_call_tool dbC7 envFail "tc1" 5 "a1" "mul" (.obj []) "u1"
      = (dbC7, .obj [("error",
          .str ("Tool \x27" ++ "mul" ++ "\x27 not found in agent\x27s available tools"))]) :=
  unknown_tool_rejected_without_record dbC7 envFail "tc1" 5 "a1" "mul" (.obj []) "u1"
    agC7 [("available_tools", .arr [.str "add"])] [.str "add"] rfl rfl rfl rfl

/-! ## C8 -/

/-- C8: when the agent's stored available-tools JSON fails to parse, tool
resolution falls through to allowing the call: the run appends a new ToolCall
row (whose stored result is the webhook dispatch outcome) and reports
completion, instead of rejecting the invocation. -/
theorem unparsable_tools_json_falls_through
    (db : DB) (env : WebhookEnv) (freshId : String) (now : Nat)
    (agent_id tool_name : String) (parameters : Json) (caller_user_id : String)
    (agent : Agent) (p : ℚ)
    (hfind : db.agents.find? (fun a => a.id == agent_id && a.is_active) = some agent)
    (hjson : agent.toolCallsExampleJson = none)
    (hprice : parseDecimal agent.price = some p) :
    (agent_call_tool db env freshId now
        agent_id tool_name parameters caller_user_id).1.toolCalls
      = db.toolCalls ++
        [{ id := freshId, agent_id := agent_id, caller_user_id := caller_user_id,
           tool_name := tool_name, parameters := some parameters,
           result := dispatchResult env agent tool_name parameters freshId,
           cost := p / (10 ^ 18 : ℚ), payment_status := "pending",
           created_at := now, completed_at := some now }] ∧
    (agent_call_tool db env freshId now
        agent_id tool_name parameters caller_user_id).2
      = .obj [("tool_call_id", .str freshId), ("agent_id", .str agent_id),
              ("tool_name", .str tool_name),
              ("result", optJson (dispatchResult env agent tool_name parameters freshId)),
              ("cost", .num (p / (10 ^ 18 : ℚ))), ("status", .str "completed")] := by
  have hval : toolValidate agent.toolCallsExampleJson tool_name = .allow := by
    rw [hjson]
    rfl
  unfold agent_call_tool
  rw [hfind]
  simp only [hval, hprice]
  constructor <;> trivial

/-- A webhook environment that always answers HTTP 200 with `{result: 42}`. -/
def envOk : WebhookEnv := fun _ _ => .success (.obj [("result", .num 42)])

/-- C8 witness: dispatching against `agC2` (whose example JSON fails to
parse) under `envOk` creates and completes a ToolCall. -/
theorem unparsable_tools_json_falls_through_witness :
    (agent_call_tool dbC2 envOk "tc1" 5 "a1" "add" (.obj []) "u1").1.toolCalls
      = dbC2.toolCalls ++
        [{ id := "tc1", agent_id := "a1", caller_user_id := "u1",
           tool_name := "add", parameters := some (.obj []),
           result := dispatchResult envOk agC2 "add" (.obj []) "tc1",
           cost := pW / (10 ^ 18 : ℚ), payment_status := "pending",
           created_at := 5, completed_at := some 5 }] ∧
    (agent_call_tool dbC2 envOk "tc1" 5 "a1" "add" (.obj []) "u1").2
      = .obj [("tool_call_id", .str "tc1"), ("agent_id", .str "a1"),
              ("tool_name", .str "add"),
              ("result", optJson (dispatchResult envOk agC2 "add" (.obj []) "tc1")),
              ("cost", .num (pW / (10 ^ 18 : ℚ))), ("status", .str "completed")] :=
  unparsable_tools_json_falls_through dbC2 envOk "tc1" 5 "a1" "add" (.obj []) "u1"
    agC2 pW rfl rfl rfl

/-! ## C9 -/

/-- C9 (counterexample): `dbP` already holds the outstanding (`pending`)
Payment `pmtP` for ToolCall `tcx`, yet `create_payment` for the same ToolCall
succeeds and leaves two pending Payments for it — the code checks only that
the ToolCall exists and never looks for an existing outstanding Payment. -/
theorem second_outstanding_payment_created :
    (dbP.payments.filter (fun q =>
        q.tool_call_id == "tcx" && q.status == "pending")).length = 1 ∧
    ∃ out, create_payment dbP "p2" "cd" 13 ⟨"tcx", 5, "USD"⟩ = .ok out ∧
      (out.1.payments.filter (fun q =>
          q.tool_call_id == "tcx" && q.status == "pending")).length = 2 :=
  ⟨rfl, _, rfl, rfl⟩

/-- C9 (amended): `create_payment` verifies only that the referenced ToolCall
exists; it then unconditionally appends a fresh `pending` Payment, whatever
Payments (outstanding or not) the ToolCall already has.  The at-most-one
outstanding-Payment invariant is not enforced. -/
theorem create_payment_appends_unconditionally
    (db : DB) (freshId suffix : String) (now : Nat) (req : PaymentRequest)
    (tc : ToolCall)
    (hfind : db.toolCalls.find? (fun t => t.id == req.tool_call_id) = some tc) :
    create_payment db freshId suffix now req
      = .ok ({ db with payments := db.payments ++
               [{ id := freshId, tool_call_id := req.tool_call_id,
                  amount := req.amount, currency := req.currency,
                  coinbase_checkout_id := some ("checkout_" ++ suffix),
                  status := "pending", created_at := now, completed_at := none }] },
             { id := freshId, tool_call_id := req.tool_call_id,
               amount := req.amount, currency := req.currency,
               coinbase_checkout_id := some ("checkout_" ++ suffix),
               status := "pending", created_at := now, completed_at := none }) := by
  unfold create_payment
  rw [hfind]

/-- C9 witness: the unconditional append evaluated on `dbP`, which already
carries a pending Payment for the same ToolCall. -/
theorem create_payment_appends_unconditionally_witness :
    create_payment dbP "p2" "cd" 13 ⟨"tcx", 5, "USD"⟩
      = .ok ({ dbP with payments := dbP.payments ++
               [{ id := "p2", tool_call_id := "tcx", amount := 5, currency := "USD",
                  coinbase_checkout_id := some ("checkout_" ++ "cd"),
                  status := "pending", created_at := 13, completed_at := none }] },
             { id := "p2", tool_call_id := "tcx", amount := 5, currency := "USD",
               coinbase_checkout_id := some ("checkout_" ++ "cd"),
               status := "pending", created_at := 13, completed_at := none }) :=
  create_payment_appends_unconditionally dbP "p2" "cd" 13 ⟨"tcx", 5, "USD"⟩ tcP rfl

/-! ## C10 -/

/-- C10: every successful registration appends exactly the row
`registeredAgent freshId now r`, whose `agentOwner` is the literal
`"0xxx....."` — the supplied `agentOwner` (validated or not) is never
persisted. -/
theorem register_persists_placeholder_owner
    (db : DB) (freshId : String) (now : Nat) (r : AgentRegisterRequest)
    (out : DB × Json)
    (h : register_agent db freshId now r = .ok out) :
    out.1.agents = db.agents ++ [registeredAgent freshId now r] ∧
    (registeredAgent freshId now r).agentOwner = some "0xxx....." := by
  refine ⟨?_, rfl⟩
  unfold register_agent at h
  split at h
  · exact absurd h (by simp)
  · split at h
    · exact absurd h (by simp)
    · split at h
      · exact absurd h (by simp)
      · split at h
        · exact absurd h (by simp)
        · split at h
          · exact absurd h (by simp)
          · split at h
            · exact absurd h (by simp)
            · simp only [Except.ok.injEq] at h
              rw [← h]

/-- A registration request whose supplied `agentOwner` passes the
42-character `0x`-prefixed validation. -/
def rReg : AgentRegisterRequest :=
  { name := "Calc", image := "I", description := "D", type := "per-use",
    price := "2000000000000000000", url := "U", endpoints := [epU],
    agentOwner := some "0xbbbbbbbbbbbbbbbbbbbbbbbbbbbbbbbbbbbbbbbb" }

/-- C10 witness: registering `rReg` (valid supplied owner address) persists
the placeholder owner string, not the supplied address. -/
theorem register_persists_placeholder_owner_witness :
    ({ agents := [registeredAgent "a9" 21 rReg] } : DB).agents
      = ({} : DB).agents ++ [registeredAgent "a9" 21 rReg] ∧
    (registeredAgent "a9" 21 rReg).agentOwner = some "0xxx....." :=
  register_persists_placeholder_owner {} "a9" 21 rReg
    ({ agents := [registeredAgent "a9" 21 rReg] },
     .obj [("agent_id", .str "a9"),
           ("message", .str "Agent registered successfully"),
           ("status", .str "active")])
    rfl

end AgentRegistry
